import Mathlib

/-!
Shallow embedding of the HerbalLink Flask application (`app.py`).

Probabilities and confidences are modelled as rationals (`ℚ`); the two
opaque TensorFlow models are modelled by the probability vector they would
return for the uploaded image (`Option (List ℚ)`, `none` when the model is
not loaded); the MongoDB collections are modelled as in-memory lists inside
`AppState`; the Flask session is an `Option SessionUser`; the werkzeug
password-hash functions `generate_password_hash` / `check_password_hash`
are opaque parameters of the routes that call them.
-/

namespace HerbalLink

/-- `np.argmax`-style maximum of a probability vector (`float(np.max(preds))`);
`0` on the empty list, which never arises from a real model output. -/
def np_max : List ℚ → ℚ
  | [] => 0
  | x :: xs => xs.foldl (fun a b => if a ≤ b then b else a) x

/-- `int(np.argmax(preds))`: index of the first occurrence of the maximum. -/
def np_argmax (l : List ℚ) : Nat :=
  l.findIdx (fun x => decide (x = np_max l))

/-- `leaf_class_names` from `app.py`. -/
def leaf_class_names : List String :=
  ["Aloevera", "Amruthaballi", "Arali", "Bhrami", "Curry leaves", "Doddpathre",
   "Hibiscus", "Mint", "Neem", "Tulsi", "Turmeric", "Unknown"]

/-- One value of the `leaf_info` dictionary. -/
structure LeafInfo where
  uses : String
  diseases : List String
deriving DecidableEq, Repr

/-- The `leaf_info` dictionary from `app.py` (keys in source order). -/
def leaf_info : List (String × LeafInfo) :=
  [("Aloevera", ⟨"Soothes burns, reduces scars, hydrates skin, and promotes wound healing.",
      ["Eczema", "Psoriasis", "Acne", "Skin ulcers", "Sunburn", "Dry skin"]⟩),
   ("Amruthaballi", ⟨"Detoxifies blood and reduces skin allergies.",
      ["Skin rashes", "Skin allergies"]⟩),
   ("Tulsi", ⟨"Has antibacterial properties for skin health.",
      ["Acne", "Skin infections"]⟩),
   ("Neem", ⟨"Powerful antimicrobial, treats many skin conditions.",
      ["Eczema", "Acne", "Psoriasis", "Ringworm", "Scabies", "Fungal infections"]⟩),
   ("Mint", ⟨"Cools and refreshes skin.", ["Acne", "Skin irritation"]⟩),
   ("Turmeric", ⟨"Natural anti-inflammatory for skin issues.",
      ["Eczema", "Psoriasis", "Skin infections", "Wounds", "Acne scars"]⟩),
   ("Ginger", ⟨"Improves skin elasticity and reduces inflammation.",
      ["Inflammatory skin conditions", "Skin aging"]⟩),
   ("Lemon", ⟨"Lightens pigmentation and reduces acne scars.",
      ["Hyperpigmentation", "Acne scars", "Oily skin"]⟩),
   ("Guava", ⟨"Improves skin texture and prevents premature aging.",
      ["Skin aging", "Wrinkles"]⟩),
   ("Henna", ⟨"Cools skin and treats fungal issues.",
      ["Fungal skin infections", "Skin rashes", "Burns"]⟩),
   ("Hibiscus", ⟨"Rejuvenates skin and reduces aging signs.",
      ["Wrinkles", "Skin aging"]⟩),
   ("Rose", ⟨"Improves skin glow and soothes irritation.",
      ["Acne", "Dry skin", "Skin irritation"]⟩),
   ("Ashoka", ⟨"Has properties for skin rejuvenation.",
      ["Skin pigmentation", "Premature aging"]⟩),
   ("Curry leaves", ⟨"Nourishes skin and prevents dryness.", ["Dry skin"]⟩),
   ("Arali", ⟨"Reduces inflammation, soothes rashes and promotes wound healing.",
      ["Eczema", "Ringworm", "Minor Wounds"]⟩),
   ("Doddpathre", ⟨"Soothes the skin and reduces itching, redness and microbial infections.",
      ["Skin rashes", "Eczema", "Ringworm"]⟩)]

/-- The `recommendations` dictionary from `app.py`. -/
def recommendations : List (String × String) :=
  [("acne", "Neem leaves act as a natural antibacterial agent..."),
   ("eczema", "Aloe vera and neem leaves help calm itching..."),
   ("psoriasis", "Neem and aloe vera leaves reduce scaling..."),
   ("ringworm", "Basil (Tulsi) and neem leaves possess antifungal properties..."),
   ("unknown", "No recommendation.")]

/-- Split a character sequence on the dot character, as Python
`filename.split(".")`; the last component is what `rsplit(".", 1)[1]`
yields when a dot is present. -/
def splitOnDot : List Char → List (List Char)
  | [] => [[]]
  | c :: cs =>
    let r := splitOnDot cs
    if c = '.' then [] :: r
    else (c :: r.headD []) :: r.tail

/-- `allowed_file(filename)`: non-empty, contains a dot, and the part after
the last dot, lower-cased (ASCII, via `Char.toLower`), is one of
png/jpg/jpeg. -/
def allowed_file (filename : String) : Bool :=
  filename ≠ "" && (splitOnDot filename.data).length ≥ 2 &&
    decide ((((splitOnDot filename.data).getLastD []).map Char.toLower)
      ∈ ["png".data, "jpg".data, "jpeg".data])

/-- `predict_leaf_image(filepath)`. The argument is the probability vector the
leaf model returns for the image at `filepath` (`none` = `leaf_model is None`).
Confidence is a percentage (`float(np.max(preds))*100`). -/
def predict_leaf_image (model_out : Option (List ℚ)) : String × ℚ :=
  match model_out with
  | none => ("Unknown", 0)
  | some preds =>
    let idx := np_argmax preds
    let conf := np_max preds * 100
    let name := if idx < leaf_class_names.length then leaf_class_names.getD idx "" else "Unknown"
    if conf < 10 then ("Not a Leaf", conf) else (name, conf)

/-- `predict_skin_image(filepath)`. First argument is the probability vector
the skin model returns (`none` = `skin_model is None`); second is the
`disease_classes` list loaded from `classes.txt` (empty = `not disease_classes`).
Confidence is fractional. -/
def predict_skin_image (model_out : Option (List ℚ)) (disease_classes : List String) :
    String × ℚ :=
  match model_out with
  | none => ("unknown", 0)
  | some preds =>
    if disease_classes = [] then ("unknown", 0)
    else
      let idx := np_argmax preds
      let conf := np_max preds
      let pred := if idx < disease_classes.length then disease_classes.getD idx "" else "unknown"
      if conf < 1/20 then ("unknown", 0) else (pred, conf)

/-- A user document in the `users` collection. -/
structure UserRecord where
  fullname : String
  email : String
  password : String
  registered_at : Nat
deriving DecidableEq, Repr

/-- A document in the `scans` collection (leaf- and skin-shaped documents
carry different fields, as in the two `insert_one` calls). -/
inductive ScanRecord where
  | leaf (leaf_name uses : String) (diseases : List String) (confidence : ℚ)
         (filename saved_name : String) (ts : Nat)
  | skin (predicted_class : String) (confidence : ℚ)
         (filename saved_name : String) (ts : Nat)
deriving DecidableEq, Repr

/-- The `timestamp` field of a scan document. -/
def ScanRecord.timestamp : ScanRecord → Nat
  | .leaf _ _ _ _ _ _ t => t
  | .skin _ _ _ _ t => t

/-- Persistent server state: the two MongoDB collections and the uploads
directory. `insert_one` appends at the end of the corresponding list. -/
structure AppState where
  users : List UserRecord
  scans : List ScanRecord
  uploads : List String
deriving DecidableEq, Repr

/-- The `{"email": ..., "fullname": ...}` value stored in `session["user"]`. -/
structure SessionUser where
  email : String
  fullname : String
deriving DecidableEq, Repr

/-- One uploaded multipart file (`request.files["image"]`). -/
structure FilePart where
  filename : String
  content : String
deriving DecidableEq, Repr

/-- HTTP responses produced by the modelled routes. -/
inductive Response where
  | redirect (target flashMsg flashCat : String)
  | errorJson (msg : String) (code : Nat)
  | leafJson (leaf_name uses : String) (diseases : List String) (confidence : ℚ)
  | skinJson (predicted_class : String) (confidence : ℚ) (recommendation : String)
  | scansJson (docs : List ScanRecord)
  | page (template : String)
deriving DecidableEq, Repr

/-- HTTP status code of a response: explicit for error JSON, 302 for
redirects, 200 otherwise. -/
def Response.status : Response → Nat
  | .redirect _ _ _ => 302
  | .errorJson _ c => c
  | _ => 200

/-- The `login_required` decorator: with no `"user"` in the session, flash
"Please login first" and redirect to the login page without invoking the
wrapped handler; otherwise run the handler. -/
def login_required (sess : Option SessionUser) (st : AppState)
    (handler : Unit → AppState × Response) : AppState × Response :=
  match sess with
  | none => (st, .redirect "login" "Please login first" "warning")
  | some _ => handler ()

/-- `GET /scan_home`. -/
def scan_home_route (sess : Option SessionUser) (st : AppState) : AppState × Response :=
  login_required sess st (fun _ => (st, .page "scanning.html"))

/-- `GET /scan_leaf`. -/
def scan_leaf_page_route (sess : Option SessionUser) (st : AppState) : AppState × Response :=
  login_required sess st (fun _ => (st, .page "scan_leaf.html"))

/-- `GET /scan_skin`. -/
def scan_skin_page_route (sess : Option SessionUser) (st : AppState) : AppState × Response :=
  login_required sess st (fun _ => (st, .page "scan_skin.html"))

/-- `POST /register`. `hash` stands for werkzeug `generate_password_hash`;
`now` for `datetime.datetime.utcnow()`. Missing form fields are modelled as
the empty string (both are falsy in the source). -/
def register_post (fullname email password confirm : String)
    (hash : String → String) (now : Nat) (st : AppState) : AppState × Response :=
  if fullname = "" || email = "" || password = "" then
    (st, .redirect "register" "All fields required" "danger")
  else if password ≠ confirm then
    (st, .redirect "register" "Passwords do not match" "danger")
  else if (st.users.find? (fun u => u.email == email)).isSome then
    (st, .redirect "register" "Email already registered" "warning")
  else
    ({ st with users := st.users ++ [⟨fullname, email, hash password, now⟩] },
     .redirect "login" "Registration successful! Login now." "success")

/-- `POST /login`. `check` stands for werkzeug `check_password_hash`
(first argument the stored hash, second the submitted password). Returns
the new `session["user"]` value (if any) and the response. -/
def login_post (email password : String) (check : String → String → Bool)
    (st : AppState) : Option SessionUser × Response :=
  match st.users.find? (fun u => u.email == email) with
  | some user =>
    if check user.password password then
      (some ⟨email, user.fullname⟩,
       .redirect "scan_home"
         ("Welcome " ++ (if user.fullname = "" then email else user.fullname)) "success")
    else (none, .redirect "login" "Invalid credentials" "danger")
  | none => (none, .redirect "login" "Invalid credentials" "danger")

/-- The timestamp-prefixed name the upload is saved under
(`f"{int(...timestamp()*1000)}_{filename}"`). -/
def safe_name (now_ms : Nat) (filename : String) : String :=
  toString now_ms ++ "_" ++ filename

/-- `POST /predict-leaf`. `image` is `request.files["image"]` (`none` when the
part is missing); `model_out` is the leaf model output for the saved image;
`now_ms` the current time in milliseconds. -/
def predict_leaf_route (sess : Option SessionUser) (image : Option FilePart)
    (model_out : Option (List ℚ)) (now_ms : Nat) (st : AppState) : AppState × Response :=
  login_required sess st (fun _ =>
    match image with
    | none => (st, .errorJson "no file" 400)
    | some file =>
      if file.filename = "" || !allowed_file file.filename then
        (st, .errorJson "invalid file" 400)
      else
        let filename := file.filename
        let saved := safe_name now_ms filename
        let st1 := { st with uploads := st.uploads ++ [saved] }
        let res := predict_leaf_image model_out
        let info := ((leaf_info.find? (fun p => p.1 == res.1)).map Prod.snd).getD
          ⟨"No info", []⟩
        let doc := ScanRecord.leaf res.1 info.uses info.diseases res.2 filename saved now_ms
        ({ st1 with scans := st1.scans ++ [doc] },
         .leafJson res.1 info.uses info.diseases res.2))

/-- `POST /predict` (skin). No filename validation is performed. -/
def predict_skin_route (sess : Option SessionUser) (image : Option FilePart)
    (model_out : Option (List ℚ)) (disease_classes : List String)
    (now_ms : Nat) (st : AppState) : AppState × Response :=
  login_required sess st (fun _ =>
    match image with
    | none => (st, .skinJson "No image" 0 "N/A")
    | some file =>
      let filename := file.filename
      let saved := safe_name now_ms filename
      let st1 := { st with uploads := st.uploads ++ [saved] }
      let res := predict_skin_image model_out disease_classes
      let recText := ((recommendations.find? (fun p => p.1 == res.1)).map Prod.snd).getD
        "No recommendation"
      let doc := ScanRecord.skin res.1 res.2 filename saved now_ms
      ({ st1 with scans := st1.scans ++ [doc] },
       .skinJson res.1 res.2 recText))

/-- The `/scans` query: `find({},{"_id":0}).sort("timestamp",-1).limit(200)` —
sort by timestamp descending, truncate to 200 documents. -/
def get_scans_docs (scans : List ScanRecord) : List ScanRecord :=
  (scans.mergeSort (fun a b => decide (b.timestamp ≤ a.timestamp))).take 200

/-- `GET /scans`. -/
def get_scans_route (sess : Option SessionUser) (st : AppState) : AppState × Response :=
  login_required sess st (fun _ => (st, .scansJson (get_scans_docs st.scans)))

/-- The `leaf_info` dictionary has no entry for the sentinel label. -/
theorem leaf_info_unknown_none :
    leaf_info.find? (fun p => p.1 == "Unknown") = none := by decide

/-- C1: for every classifier invocation whose top (arg-max) probability is
below the respective threshold — 10 percent for the leaf classifier, 0.05
fractional for the skin classifier — the returned label is the sentinel
value ("Not a Leaf" for leaf, "unknown" for skin) regardless of which class
the arg-max selected, and for the skin classifier the returned confidence
is additionally forced to 0.0. -/
theorem C1_low_confidence_sentinel :
    (∀ preds : List ℚ, np_max preds * 100 < 10 →
      predict_leaf_image (some preds) = ("Not a Leaf", np_max preds * 100)) ∧
    (∀ (preds : List ℚ) (disease_classes : List String), np_max preds < 1/20 →
      predict_skin_image (some preds) disease_classes = ("unknown", 0)) := by
  constructor
  · intro preds h
    simp only [predict_leaf_image]
    rw [if_pos h]
  · intro preds disease_classes h
    by_cases hc : disease_classes = []
    · simp [predict_skin_image, hc]
    · simp only [predict_skin_image]
      rw [if_neg hc, if_pos h]

/-- Witness for C1 at concrete low-confidence model outputs. -/
theorem C1_low_confidence_sentinel_witness :
    predict_leaf_image (some [(1:ℚ)/100]) = ("Not a Leaf", np_max [(1:ℚ)/100] * 100) ∧
    predict_skin_image (some [(1:ℚ)/100]) ["acne"] = ("unknown", 0) :=
  ⟨C1_low_confidence_sentinel.1 [(1:ℚ)/100] (by with_unfolding_all decide),
   C1_low_confidence_sentinel.2 [(1:ℚ)/100] ["acne"] (by with_unfolding_all decide)⟩

/-- C2: for every POST /predict-leaf with a valid image while the leaf model
is not loaded, the classifier returns the sentinel label "Unknown" with
confidence 0.0, the request succeeds with status 200, and a scan-log record
with that sentinel result is still inserted. -/
theorem C2_model_unavailable_degrades_gracefully (u : SessionUser) (file : FilePart)
    (now_ms : Nat) (st : AppState)
    (hname : file.filename ≠ "") (hext : allowed_file file.filename = true) :
    (predict_leaf_route (some u) (some file) none now_ms st).2 =
      Response.leafJson "Unknown" "No info" [] 0 ∧
    ((predict_leaf_route (some u) (some file) none now_ms st).2).status = 200 ∧
    (predict_leaf_route (some u) (some file) none now_ms st).1.scans =
      st.scans ++ [ScanRecord.leaf "Unknown" "No info" [] 0 file.filename
        (safe_name now_ms file.filename) now_ms] := by
  have hpred : predict_leaf_image none = ("Unknown", 0) := rfl
  simp only [predict_leaf_route, login_required, hpred, leaf_info_unknown_none,
    hname, hext, decide_eq_false hname]
  simp [Response.status]

/-- Witness for C2 at a concrete valid upload and empty database. -/
theorem C2_model_unavailable_degrades_gracefully_witness :
    (predict_leaf_route (some ⟨"a@x.com", "A"⟩) (some ⟨"a.png", "img"⟩) none 0
        ⟨[], [], []⟩).2 = Response.leafJson "Unknown" "No info" [] 0 ∧
    ((predict_leaf_route (some ⟨"a@x.com", "A"⟩) (some ⟨"a.png", "img"⟩) none 0
        ⟨[], [], []⟩).2).status = 200 ∧
    (predict_leaf_route (some ⟨"a@x.com", "A"⟩) (some ⟨"a.png", "img"⟩) none 0
        ⟨[], [], []⟩).1.scans =
      ([] : List ScanRecord) ++ [ScanRecord.leaf "Unknown" "No info" [] 0 "a.png"
        (safe_name 0 "a.png") 0] :=
  C2_model_unavailable_degrades_gracefully ⟨"a@x.com", "A"⟩ ⟨"a.png", "img"⟩ 0
    ⟨[], [], []⟩ (by decide) (by decide)

/-- C3: for every request to any of /scan_home, /scan_leaf, /scan_skin,
/predict, /predict-leaf, or /scans with no user in the session, the request
is short-circuited to a redirect to the login page with a notice, and the
business logic of the route (file save, classification, database read or write)
is never executed: the state is unchanged and the result is independent of
the wrapped handler. -/
theorem C3_unauthenticated_requests_short_circuit :
    ∀ st : AppState,
      (∀ handler, login_required none st handler =
        (st, Response.redirect "login" "Please login first" "warning")) ∧
      scan_home_route none st =
        (st, Response.redirect "login" "Please login first" "warning") ∧
      scan_leaf_page_route none st =
        (st, Response.redirect "login" "Please login first" "warning") ∧
      scan_skin_page_route none st =
        (st, Response.redirect "login" "Please login first" "warning") ∧
      (∀ image model_out now_ms, predict_leaf_route none image model_out now_ms st =
        (st, Response.redirect "login" "Please login first" "warning")) ∧
      (∀ image model_out disease_classes now_ms,
        predict_skin_route none image model_out disease_classes now_ms st =
          (st, Response.redirect "login" "Please login first" "warning")) ∧
      get_scans_route none st =
        (st, Response.redirect "login" "Please login first" "warning") := by
  intro st
  refine ⟨fun handler => rfl, rfl, rfl, rfl, fun image model_out now_ms => rfl,
    fun image model_out disease_classes now_ms => rfl, rfl⟩

/-- C4: for every registration attempt whose email already exists in the
credential store, registration fails with a user-visible validation message
(a flash plus redirect back to the register form) and the credential store
is unchanged; more generally, registration fails without inserting when any
required field is empty or when password and confirm differ. -/
theorem C4_register_rejects_without_insert (st : AppState)
    (fullname email password confirm : String) (hash : String → String) (now : Nat)
    (h : (st.users.find? (fun u => u.email == email)).isSome = true ∨
      fullname = "" ∨ email = "" ∨ password = "" ∨ confirm = "" ∨ password ≠ confirm) :
    (register_post fullname email password confirm hash now st).1 = st ∧
    ∃ msg cat, (register_post fullname email password confirm hash now st).2 =
      Response.redirect "register" msg cat := by
  unfold register_post
  split
  · exact ⟨rfl, _, _, rfl⟩
  next h1 =>
    split
    · exact ⟨rfl, _, _, rfl⟩
    next h2 =>
      split
      · exact ⟨rfl, _, _, rfl⟩
      next h3 =>
        exfalso
        have hpc : password = confirm := not_not.mp h2
        rcases h with h | h | h | h | h | h
        · exact h3 h
        · exact h1 (by simp [h])
        · exact h1 (by simp [h])
        · exact h1 (by simp [h])
        · exact h1 (by simp [hpc.trans h])
        · exact h2 h

/-- Witness for C4: registering an already-registered email leaves the store
unchanged. -/
theorem C4_register_rejects_without_insert_witness :
    (register_post "B" "a@x.com" "pw" "pw" (fun s => s ++ "#h") 1
        ⟨[⟨"A", "a@x.com", "pw1234#h", 0⟩], [], []⟩).1 =
      ⟨[⟨"A", "a@x.com", "pw1234#h", 0⟩], [], []⟩ ∧
    ∃ msg cat, (register_post "B" "a@x.com" "pw" "pw" (fun s => s ++ "#h") 1
        ⟨[⟨"A", "a@x.com", "pw1234#h", 0⟩], [], []⟩).2 =
      Response.redirect "register" msg cat :=
  C4_register_rejects_without_insert ⟨[⟨"A", "a@x.com", "pw1234#h", 0⟩], [], []⟩
    "B" "a@x.com" "pw" "pw" (fun s => s ++ "#h") 1 (Or.inl (by decide))

/-- C5: for every successful registration, the stored password field is the
output of the one-way hash function applied to the submitted password (so
never the plaintext itself, as long as the hash is not the identity on it),
and login verifies a submitted password with the one-way comparison
function applied to the stored hash, never by direct equality against the
stored value. -/
theorem C5_hash_stored_and_checked (st : AppState)
    (fullname email password confirm : String) (hash : String → String)
    (check : String → String → Bool) (now : Nat)
    (hf : fullname ≠ "") (he : email ≠ "") (hp : password ≠ "")
    (hc : password = confirm)
    (hnew : st.users.find? (fun u => u.email == email) = none) :
    (register_post fullname email password confirm hash now st).1.users =
      st.users ++ [⟨fullname, email, hash password, now⟩] ∧
    (hash password ≠ password →
      ∀ u ∈ (register_post fullname email password confirm hash now st).1.users,
        u ∈ st.users ∨ u.password ≠ password) ∧
    ((login_post email password check st).1.isSome = true ↔
      ∃ u, st.users.find? (fun x => x.email == email) = some u ∧
        check u.password password = true) := by
  have hreg : (register_post fullname email password confirm hash now st).1.users =
      st.users ++ [⟨fullname, email, hash password, now⟩] := by
    unfold register_post
    rw [if_neg (by simp [hf, he, hp]), if_neg (not_not.mpr hc), if_neg (by simp [hnew])]
  refine ⟨hreg, ?_, ?_⟩
  · intro hone u hu
    rw [hreg] at hu
    rcases List.mem_append.mp hu with hu | hu
    · exact Or.inl hu
    · right
      rcases List.mem_singleton.mp hu with rfl
      exact hone
  · cases hfind : st.users.find? (fun x => x.email == email) with
    | none => simp [login_post, hfind]
    | some user =>
      by_cases hchk : check user.password password = true
      · simp [login_post, hfind, hchk]
      · simp only [Bool.not_eq_true] at hchk
        simp [login_post, hfind, hchk]

/-- Witness for C5 with a concrete injective-on-this-input hash and its
matching checker. -/
theorem C5_hash_stored_and_checked_witness :
    (register_post "A" "a@x.com" "pw1234" "pw1234" (fun s => s ++ "#h") 0
        ⟨[], [], []⟩).1.users =
      ([] : List UserRecord) ++ [⟨"A", "a@x.com", "pw1234#h", 0⟩] ∧
    ((fun s => s ++ "#h") "pw1234" ≠ "pw1234" →
      ∀ u ∈ (register_post "A" "a@x.com" "pw1234" "pw1234" (fun s => s ++ "#h") 0
          ⟨[], [], []⟩).1.users,
        u ∈ ([] : List UserRecord) ∨ u.password ≠ "pw1234") ∧
    ((login_post "a@x.com" "pw1234" (fun stored submitted => stored == submitted ++ "#h")
        ⟨[], [], []⟩).1.isSome = true ↔
      ∃ u, ([] : List UserRecord).find? (fun x => x.email == "a@x.com") = some u ∧
        (fun stored submitted => stored == submitted ++ "#h") u.password "pw1234" = true) :=
  C5_hash_stored_and_checked ⟨[], [], []⟩ "A" "a@x.com" "pw1234" "pw1234"
    (fun s => s ++ "#h") (fun stored submitted => stored == submitted ++ "#h") 0
    (by decide) (by decide) (by decide) rfl (by decide)

/-- C6: every GET /scans response is a JSON array of at most 200 scan
records, ordered by timestamp non-increasing, drawn from the records of all
users
with no per-user filtering (the result does not depend on which
authenticated user asks). -/
theorem C6_scans_limited_sorted_unfiltered (st : AppState) (u v : SessionUser) :
    (get_scans_route (some u) st).2 = Response.scansJson (get_scans_docs st.scans) ∧
    get_scans_route (some u) st = get_scans_route (some v) st ∧
    (get_scans_docs st.scans).length ≤ 200 ∧
    List.Pairwise (fun a b => b.timestamp ≤ a.timestamp) (get_scans_docs st.scans) ∧
    (∀ r, r ∈ get_scans_docs st.scans → r ∈ st.scans) := by
  refine ⟨rfl, rfl, ?_, ?_, ?_⟩
  · rw [get_scans_docs, List.length_take]
    exact min_le_left _ _
  · have hsorted : List.Pairwise
        (fun a b : ScanRecord => decide (b.timestamp ≤ a.timestamp) = true)
        (st.scans.mergeSort (fun a b => decide (b.timestamp ≤ a.timestamp))) := by
      apply List.sorted_mergeSort
      · intro a b c hab hbc
        simp only [decide_eq_true_eq] at hab hbc ⊢
        omega
      · intro a b
        simp only [Bool.or_eq_true, decide_eq_true_eq]
        omega
    exact ((hsorted.sublist (List.take_sublist _ _)).imp (fun h => by simpa using h) :)
  · intro r hr
    exact List.mem_mergeSort.mp (List.mem_of_mem_take hr)

/-- Witness for C6 on a concrete two-record scan log. -/
theorem C6_scans_limited_sorted_unfiltered_witness :
    ScanRecord.skin "acne" 1 "a.jpg" "5_a.jpg" 5 ∈
      (⟨[], [ScanRecord.skin "acne" 1 "a.jpg" "5_a.jpg" 5], []⟩ : AppState).scans :=
  (C6_scans_limited_sorted_unfiltered
      ⟨[], [ScanRecord.skin "acne" 1 "a.jpg" "5_a.jpg" 5], []⟩
      ⟨"a@x.com", "A"⟩ ⟨"b@x.com", "B"⟩).2.2.2.2
    (ScanRecord.skin "acne" 1 "a.jpg" "5_a.jpg" 5)
    (by simp [get_scans_docs])

/-- C7: for every authenticated POST /predict-leaf whose uploaded filename
is empty or has an extension not in png/jpg/jpeg (case-insensitive), the
request is rejected with HTTP 400, no file is saved, and no scan-log record
is created. -/
theorem C7_leaf_rejects_bad_extension (u : SessionUser) (file : FilePart)
    (model_out : Option (List ℚ)) (now_ms : Nat) (st : AppState)
    (h : file.filename = "" ∨ allowed_file file.filename = false) :
    predict_leaf_route (some u) (some file) model_out now_ms st =
      (st, Response.errorJson "invalid file" 400) ∧
    (Response.errorJson "invalid file" 400).status = 400 := by
  refine ⟨?_, rfl⟩
  simp only [predict_leaf_route, login_required]
  rcases h with h | h
  · rw [if_pos (by simp [h])]
  · rw [if_pos (by simp [h])]

/-- Witness for C7 with a disallowed "leaf.txt" upload. -/
theorem C7_leaf_rejects_bad_extension_witness :
    predict_leaf_route (some ⟨"a@x.com", "A"⟩) (some ⟨"leaf.txt", "c"⟩) none 7
        ⟨[], [], []⟩ =
      (⟨[], [], []⟩, Response.errorJson "invalid file" 400) ∧
    (Response.errorJson "invalid file" 400).status = 400 :=
  C7_leaf_rejects_bad_extension ⟨"a@x.com", "A"⟩ ⟨"leaf.txt", "c"⟩ none 7
    ⟨[], [], []⟩ (Or.inr (by decide))

/-- C8: the extension allow-list is enforced only on the leaf endpoint: for
every authenticated POST /predict carrying an "image" file, the skin route
performs no extension or empty-filename validation and proceeds — whatever
the filename — to save the file, classify it, append a scan-log record, and
answer 200. -/
theorem C8_skin_skips_extension_check :
    ∀ (u : SessionUser) (file : FilePart) (model_out : Option (List ℚ))
      (disease_classes : List String) (now_ms : Nat) (st : AppState),
      (predict_skin_route (some u) (some file) model_out disease_classes now_ms st).1.uploads =
        st.uploads ++ [safe_name now_ms file.filename] ∧
      ∃ label conf recText,
        (predict_skin_route (some u) (some file) model_out disease_classes now_ms st).1.scans =
          st.scans ++ [ScanRecord.skin label conf file.filename
            (safe_name now_ms file.filename) now_ms] ∧
        (predict_skin_route (some u) (some file) model_out disease_classes now_ms st).2 =
          Response.skinJson label conf recText ∧
        ((predict_skin_route (some u) (some file) model_out disease_classes now_ms st).2).status
          = 200 := by
  intro u file model_out disease_classes now_ms st
  exact ⟨rfl, _, _, _, rfl, rfl, rfl⟩

/-- C9: for every authenticated POST /predict with no "image" file part, the
endpoint answers 200 with the JSON body
predicted_class "No image", confidence 0.0, recommendation "N/A", saves no
file and creates no scan-log record — unlike /predict-leaf, which rejects
the same condition with HTTP 400. -/
theorem C9_skin_no_image_succeeds_leaf_rejects :
    ∀ (u : SessionUser) (model_out model_out₂ : Option (List ℚ))
      (disease_classes : List String) (now_ms now_ms₂ : Nat) (st st₂ : AppState),
      predict_skin_route (some u) none model_out disease_classes now_ms st =
        (st, Response.skinJson "No image" 0 "N/A") ∧
      (Response.skinJson "No image" 0 "N/A").status = 200 ∧
      predict_leaf_route (some u) none model_out₂ now_ms₂ st₂ =
        (st₂, Response.errorJson "no file" 400) ∧
      (Response.errorJson "no file" 400).status = 400 := by
  intro u model_out model_out₂ disease_classes now_ms now_ms₂ st st₂
  exact ⟨rfl, rfl, rfl, rfl⟩

/-- C10 as frozen is false on the leaf classifier: with twelve class names
and a thirteen-entry probability vector whose arg-max lands at index 12
with probability 0.05, the arg-max index is not smaller than the class-name
list length, yet the returned label is "Not a Leaf" (the below-threshold
sentinel), not "Unknown". -/
theorem C10_counterexample_label_is_not_unknown :
    leaf_class_names.length ≤ np_argmax [(0:ℚ), 0, 0, 0, 0, 0, 0, 0, 0, 0, 0, 0, 1/20] ∧
    (predict_leaf_image (some [(0:ℚ), 0, 0, 0, 0, 0, 0, 0, 0, 0, 0, 0, 1/20])).1 =
      "Not a Leaf" ∧
    "Not a Leaf" ≠ "Unknown" := by
  with_unfolding_all decide

/-- C10 (amended): for every classifier invocation where the arg-max index
is not smaller than the length of the corresponding class-name list, the
classifier returns a sentinel label instead of an out-of-bounds lookup —
"Unknown" for leaf when the confidence is at least the 10-percent
threshold and "Not a Leaf" below it, and "unknown" for skin; class-name
lookup is total. -/
theorem C10_amended_out_of_bounds_sentinel :
    (∀ preds : List ℚ, leaf_class_names.length ≤ np_argmax preds →
      (predict_leaf_image (some preds)).1 =
        (if np_max preds * 100 < 10 then "Not a Leaf" else "Unknown")) ∧
    (∀ (preds : List ℚ) (disease_classes : List String),
      disease_classes.length ≤ np_argmax preds →
      (predict_skin_image (some preds) disease_classes).1 = "unknown") := by
  constructor
  · intro preds h
    simp only [predict_leaf_image]
    rw [if_neg (Nat.not_lt.mpr h)]
    by_cases hconf : np_max preds * 100 < 10
    · rw [if_pos hconf, if_pos hconf]
    · rw [if_neg hconf, if_neg hconf]
  · intro preds disease_classes h
    by_cases hc : disease_classes = []
    · simp [predict_skin_image, hc]
    · simp only [predict_skin_image]
      rw [if_neg hc, if_neg (Nat.not_lt.mpr h)]
      by_cases hconf : np_max preds < 1/20
      · rw [if_pos hconf]
      · rw [if_neg hconf]

/-- Witness for the amended C10 at concrete out-of-range arg-max inputs. -/
theorem C10_amended_out_of_bounds_sentinel_witness :
    (predict_leaf_image (some [(0:ℚ), 0, 0, 0, 0, 0, 0, 0, 0, 0, 0, 0, 1/20])).1 =
      (if np_max [(0:ℚ), 0, 0, 0, 0, 0, 0, 0, 0, 0, 0, 0, 1/20] * 100 < 10
        then "Not a Leaf" else "Unknown") ∧
    (predict_skin_image (some [(0:ℚ), 1]) ["acne"]).1 = "unknown" :=
  ⟨C10_amended_out_of_bounds_sentinel.1 [(0:ℚ), 0, 0, 0, 0, 0, 0, 0, 0, 0, 0, 0, 1/20]
      (by with_unfolding_all decide),
   C10_amended_out_of_bounds_sentinel.2 [(0:ℚ), 1] ["acne"]
      (by with_unfolding_all decide)⟩

end HerbalLink
